import Mathlib

/-!
Verification development for the FYTA UC-Remote integration driver
(driver.py).  The definitions below are a shallow embedding of the parts of
the driver that the properties concern: the measurement status labels
(get_measurement_status_text), the plant-list fetch with 401 re-authentication
(get_user_plants), the network-wait retry loop (wait_for_network_connection),
the entity reconciliation pass (create_plant_sensors) and the startup event
ordering of main / update_entities_from_api.

Network effects are made explicit: fetch outcomes, authentication outcomes and
connectivity-probe outcomes are passed in as data, and the reconciler receives
the per-plant detail fetch as a function argument.  Python dict lookups with
possibly absent keys become Option fields; a plant record whose processing
raises an exception (caught by the per-plant try/except of
create_plant_sensors) is modelled by the PlantRecord.bad constructor.
-/

set_option maxHeartbeats 1000000

namespace FytaDriver

/-- Status-code to text mapping of get_measurement_status_text
(driver.py lines 833-848), on integer status codes. -/
def get_measurement_status_text (status_code : Int) : String :=
  if status_code = 0 then "No Data"
  else if status_code = 1 then "Too Low"
  else if status_code = 2 then "Low"
  else if status_code = 3 then "Perfect"
  else if status_code = 4 then "High"
  else if status_code = 5 then "Too High"
  else "Unknown"

/-- Python measurements.get("status") may be absent (None); None compares
unequal to every integer, so it falls through every branch of
get_measurement_status_text to "Unknown". -/
def statusTextOfCode : Option Int → String
  | some c => get_measurement_status_text c
  | none => "Unknown"

/-- One measurement block of the plant details payload:
measurements.<kind> with optional "status" and optional values.current
(the current value, after the str() conversion the driver applies). -/
structure Measurement where
  status : Option Int
  current : Option String
deriving Repr, DecidableEq

/-- The "measurements" object of a plant-details payload; temperature and
moisture blocks may each be absent. -/
structure Measurements where
  temperature : Option Measurement
  moisture : Option Measurement
deriving Repr, DecidableEq

/-- The "sensor" object of a plant-details payload, carrying
is_battery_low (default False when the key is absent). -/
structure DetailsSensor where
  is_battery_low : Bool
deriving Repr, DecidableEq

/-- A plant-details payload as used by create_plant_sensors: the
"measurements" object and the "sensor" object, each possibly absent. -/
structure PlantDetails where
  measurements : Option Measurements
  sensor : Option DetailsSensor
deriving Repr, DecidableEq

/-- The "sensor" object of a plant-list record, carrying has_sensor. -/
structure PlantSensorInfo where
  has_sensor : Bool
deriving Repr, DecidableEq

/-- One record of the plant list returned by get_user_plants: id, nickname and
scientific_name may be absent; the nested "sensor" object may be absent. -/
structure Plant where
  id : Option String
  nickname : Option String
  scientific_name : Option String
  sensor : Option PlantSensorInfo
deriving Repr, DecidableEq

/-- An element of the fetched plant list as seen by the reconciliation loop:
either a well-formed record, or a record whose processing raises an exception
(which the per-plant try/except of create_plant_sensors catches). -/
inductive PlantRecord where
  | good (p : Plant)
  | bad
deriving Repr, DecidableEq

/-- Kind tag of a stored entity. -/
inductive EntityKind where
  | temperature
  | moisture
deriving Repr, DecidableEq

/-- A sensor entity as stored in the _plant_sensors dictionary: the fields the
driver sets on PlantTemperatureSensor / PlantMoistureSensor.  status_text is
the extra "status" attribute (set only on temperature sensors); the constant
STATE attribute, never modified on this path, is omitted. -/
structure Entity where
  kind : EntityKind
  plant_id : String
  name : String
  scientific_name : String
  value : String
  status_text : Option String
deriving Repr, DecidableEq

/-- The _plant_sensors dictionary: entity id to entity. -/
abbrev EntitySet := String → Option Entity

/-- Dictionary assignment _plant_sensors[k] = e. -/
def setEntity (st : EntitySet) (k : String) (e : Entity) : EntitySet :=
  fun k2 => if k2 = k then some e else st k2

/-- Temperature entity identifier f"fyta-plant-{plant_id}". -/
def temp_entity_id (pid : String) : String := "fyta-plant-" ++ pid

/-- Moisture entity identifier f"fyta-moisture-{plant_id}". -/
def moisture_entity_id (pid : String) : String := "fyta-moisture-" ++ pid

/-- Temperature value derivation (driver.py lines 544-556): status 0 gives
"0"; else a present values.current is used; else the default attribute value
"0" set by the PlantTemperatureSensor constructor is kept. -/
def temperature_value (m : Measurement) : String :=
  if m.status = some 0 then "0"
  else match m.current with
    | some c => c
    | none => "0"

/-- Moisture value derivation before battery decoration
(driver.py lines 572-586): status 0 gives "No Data"; status 1 with
values.current == "0" gives the special-cased literal "To Low" (sic, as
written on line 580); otherwise the generic status label. -/
def moisture_base_value (m : Measurement) : String :=
  if m.status = some 0 then "No Data"
  else if m.status = some 1 ∧ m.current = some "0" then "To Low"
  else statusTextOfCode m.status

/-- Processing of one well-formed plant record by the body of the
create_plant_sensors loop (driver.py lines 483-617).  The per-plant detail
fetch is the function argument fetch; a none result covers both an empty
details payload and an exception inside get_plant_details (which returns {}
on any exception), both of which make the loop skip the plant. -/
def processPlant (fetch : String → Option PlantDetails) (st : EntitySet)
    (p : Plant) : EntitySet :=
  let has_sensor := match p.sensor with
    | some s => s.has_sensor
    | none => false
  if has_sensor then
    match p.id with
    | none => st
    | some plant_id =>
      match fetch plant_id with
      | none => st
      | some details =>
        let nickname := p.nickname.getD ("Plant " ++ plant_id)
        let scientific_name := p.scientific_name.getD "Unknown"
        let temp0 : Entity :=
          { kind := .temperature, plant_id := plant_id,
            name := nickname ++ " Temperature",
            scientific_name := scientific_name,
            value := "0", status_text := none }
        let moist0 : Entity :=
          { kind := .moisture, plant_id := plant_id,
            name := nickname ++ " Moisture",
            scientific_name := scientific_name,
            value := "Unknown", status_text := none }
        match details.measurements with
        | none =>
          setEntity (setEntity st (temp_entity_id plant_id) temp0)
            (moisture_entity_id plant_id) moist0
        | some ms =>
          let battery_low := match details.sensor with
            | some s => s.is_battery_low
            | none => false
          let temp1 := match ms.temperature with
            | none => temp0
            | some tm =>
              { temp0 with value := temperature_value tm,
                           status_text := some (statusTextOfCode tm.status) }
          let moist1 := match ms.moisture with
            | none => moist0
            | some mm =>
              let v := moisture_base_value mm
              let v2 := if battery_low then v ++ " (Battery Low)" else v
              { moist0 with value := v2 }
          setEntity (setEntity st (temp_entity_id plant_id) temp1)
            (moisture_entity_id plant_id) moist1
  else st

/-- The create_plant_sensors reconciliation pass over a fetched plant list:
each record is processed inside a try/except that catches any exception and
continues with the next plant, so a bad record leaves the entity set
untouched.  The _plant_sensors dictionary is not reset between passes (the
reset on line 476 is commented out). -/
def create_plant_sensors (fetch : String → Option PlantDetails)
    (plants : List PlantRecord) (st : EntitySet) : EntitySet :=
  plants.foldl (fun acc r =>
    match r with
    | .good p => processPlant fetch acc p
    | .bad => acc) st

/-- Outcome of one HTTP GET of the plant list inside get_user_plants:
a 2xx response carrying a list, a 401 authorization failure, another HTTP
status error, or a request (connection) error. -/
inductive FetchOutcome where
  | success (plants : List Plant)
  | http401
  | httpError
  | requestError
deriving Repr, DecidableEq

/-- Outcome of one authenticate_fyta call made for re-authentication: success
(a payload with an access_token) or failure (an exception, or a payload
without an access_token). -/
inductive AuthOutcome where
  | success
  | failure
deriving Repr, DecidableEq

/-- The get_user_plants control flow (driver.py lines 391-438), with the
network scripted: the first list supplies the outcome of each successive GET
of the plant list, the second the outcome of each successive
re-authentication.  On a 401 the driver re-authenticates and, when that
succeeds, calls itself again with the refreshed token; when re-authentication
fails (or raises) it returns an empty list.  Any other error returns an empty
list.  An exhausted outcome script is read as a request error. -/
def get_user_plants : List FetchOutcome → List AuthOutcome → List Plant
  | [], _ => []
  | .success ps :: _, _ => ps
  | .httpError :: _, _ => []
  | .requestError :: _, _ => []
  | .http401 :: rest, auths =>
    match auths with
    | [] => []
    | .failure :: _ => []
    | .success :: auths2 => get_user_plants rest auths2

/-- Loop body of wait_for_network_connection (driver.py lines 676-692):
attempt is the 1-based attempt counter, remaining the number of attempts still
allowed (max_retries - attempt + 1), connected scripts the probe outcome per
attempt and delay is RETRY_DELAY_SECONDS.  Returns the boolean result together
with the list of sleep durations performed, in order. -/
def wfnc_go (connected : Nat → Bool) (delay : Nat) :
    Nat → Nat → Bool × List Nat
  | _, 0 => (false, [])
  | attempt, r + 1 =>
    if connected attempt then (true, [])
    else if r = 0 then (false, [])
    else
      let p := wfnc_go connected delay (attempt + 1) r
      (p.1, delay :: p.2)

/-- wait_for_network_connection: up to max_retries probe attempts, sleeping
the fixed delay between consecutive attempts; returns whether the network
became reachable and the list of sleeps performed. -/
def wait_for_network_connection (connected : Nat → Bool)
    (max_retries delay : Nat) : Bool × List Nat :=
  wfnc_go connected delay 1 max_retries

/-- Events of the startup path of main / update_entities_from_api, at the
granularity the ordering property needs. -/
inductive Event where
  | apiInit
  | registerEntity (id : String)
  | setConnected
  | spawnBackground
  | networkProbe
  | authenticate
  | fetchPlants
  | persist
deriving Repr, DecidableEq

/-- Network activity of the background refresh: the connectivity probes of
wait_for_network_connection, the authenticate_fyta call and the plant fetch.
api.init and set_device_state talk to the host boundary, not to the FYTA
network, and are not refresh network activity. -/
def Event.isNetwork : Event → Bool
  | .networkProbe => true
  | .authenticate => true
  | .fetchPlants => true
  | _ => false

/-- Event trace of the background task update_entities_from_api
(driver.py lines 1020-1044): wait for the network (probes), then authenticate,
then on success persist the refreshed config and run create_plant_sensors
(whose events, fetches and entity registrations included, are the argument
reconcileEvents). -/
def update_entities_from_api_trace (probes : Nat) (netOk authOk : Bool)
    (reconcileEvents : List Event) : List Event :=
  List.replicate probes Event.networkProbe ++
    (if netOk then
      Event.authenticate ::
        (if authOk then Event.persist :: reconcileEvents else [])
    else [])

/-- Event trace of main (driver.py lines 920-1017): api.init, then one
registration per stored entity loaded from entities.json, then
set_device_state(CONNECTED), then - only when a configuration with an email
exists - the spawn of the background task followed by that task, which on the
single-threaded event loop runs only after main has finished. -/
def main_trace (stored : List String) (hasConfig : Bool) (probes : Nat)
    (netOk authOk : Bool) (reconcileEvents : List Event) : List Event :=
  Event.apiInit :: stored.map Event.registerEntity ++ [Event.setConnected] ++
    (if hasConfig then
      Event.spawnBackground ::
        update_entities_from_api_trace probes netOk authOk reconcileEvents
    else [])

/-- The scenario plant of the spec test case: id "7", nickname "Fern", with a
sensor. -/
def fern : Plant :=
  { id := some "7", nickname := some "Fern", scientific_name := none,
    sensor := some { has_sensor := true } }

/-- Details for the scenario plant: temperature status 3 with current "21.5",
moisture status 0. -/
def fernDetails : PlantDetails :=
  { measurements := some
      { temperature := some { status := some 3, current := some "21.5" },
        moisture := some { status := some 0, current := none } },
    sensor := none }

/-- Detail fetch returning the scenario payload for plant "7". -/
def fernFetch : String → Option PlantDetails :=
  fun pid => if pid = "7" then some fernDetails else none

/-- The empty _plant_sensors dictionary. -/
def emptySet : EntitySet := fun _ => none

/-- A plant reporting zero moisture with status 1. -/
def zeroMoistPlant : Plant :=
  { id := some "3", nickname := some "Basil", scientific_name := none,
    sensor := some { has_sensor := true } }

/-- Details with moisture status 1 and values.current equal to "0". -/
def zeroMoistDetails : PlantDetails :=
  { measurements := some
      { temperature := none,
        moisture := some { status := some 1, current := some "0" } },
    sensor := none }

/-- Detail fetch returning the zero-moisture payload for plant "3". -/
def zeroMoistFetch : String → Option PlantDetails :=
  fun pid => if pid = "3" then some zeroMoistDetails else none

/-- A plant with a sensor whose battery is low. -/
def thirstyPlant : Plant :=
  { id := some "5", nickname := some "Cactus", scientific_name := none,
    sensor := some { has_sensor := true } }

/-- Details with moisture status 2 and is_battery_low true. -/
def thirstyDetails : PlantDetails :=
  { measurements := some
      { temperature := none,
        moisture := some { status := some 2, current := some "40" } },
    sensor := some { is_battery_low := true } }

/-- Detail fetch returning the low-battery payload for plant "5". -/
def thirstyFetch : String → Option PlantDetails :=
  fun pid => if pid = "5" then some thirstyDetails else none

/-- A plant whose moisture measurement reports status 0 (no data) while the
sensor battery is low. -/
def noDataPlant : Plant :=
  { id := some "9", nickname := some "Ivy", scientific_name := none,
    sensor := some { has_sensor := true } }

/-- Details with moisture status 0 and is_battery_low true. -/
def noDataDetails : PlantDetails :=
  { measurements := some
      { temperature := none,
        moisture := some { status := some 0, current := none } },
    sensor := some { is_battery_low := true } }

/-- Detail fetch returning the no-data payload for plant "9". -/
def noDataFetch : String → Option PlantDetails :=
  fun pid => if pid = "9" then some noDataDetails else none

/-- An entity present in the set before a reconciliation pass, belonging to a
plant ("99") that the pass does not see. -/
def preEntity : Entity :=
  { kind := .temperature, plant_id := "99", name := "Old Temperature",
    scientific_name := "Unknown", value := "0", status_text := none }

/-- An entity set already holding preEntity under its id. -/
def preSet : EntitySet :=
  fun k => if k = "fyta-plant-99" then some preEntity else none

/-- Claim C1, code side: on the failing input (moisture status 1 with
values.current "0") the driver stores the misspelled literal "To Low"
(driver.py line 580), which differs from the label "Too Low" that the claim,
the status-label table and the code comment on line 577 all use; with status 2
and values.current "0" the generic label "Low" is produced as the claim says.
The full reconciliation pass on such a plant yields the entity value
"To Low". -/
theorem c1_zero_moisture_special_case_literal :
    moisture_base_value { status := some 1, current := some "0" } = "To Low"
  ∧ "To Low" ≠ "Too Low"
  ∧ moisture_base_value { status := some 2, current := some "0" } = "Low"
  ∧ get_measurement_status_text 1 = "Too Low"
  ∧ ((create_plant_sensors zeroMoistFetch [PlantRecord.good zeroMoistPlant]
        emptySet) (moisture_entity_id "3")).map Entity.value
      = some "To Low" := by
  decide

/-- Claim C2: get_measurement_status_text maps 0 to "No Data", 1 to "Too Low",
2 to "Low", 3 to "Perfect", 4 to "High", 5 to "Too High", and every status
code outside 0..5 to "Unknown". -/
theorem c2_status_label_mapping :
    get_measurement_status_text 0 = "No Data"
  ∧ get_measurement_status_text 1 = "Too Low"
  ∧ get_measurement_status_text 2 = "Low"
  ∧ get_measurement_status_text 3 = "Perfect"
  ∧ get_measurement_status_text 4 = "High"
  ∧ get_measurement_status_text 5 = "Too High"
  ∧ ∀ n : Int, ¬ (0 ≤ n ∧ n ≤ 5) →
      get_measurement_status_text n = "Unknown" := by
  refine ⟨rfl, rfl, rfl, rfl, rfl, rfl, ?_⟩
  intro n h
  unfold get_measurement_status_text
  split_ifs with h0 h1 h2 h3 h4 h5 <;> first | rfl | (exfalso; omega)

/-- Claim C2 witness: the out-of-range code 42 is mapped to "Unknown". -/
theorem c2_status_label_mapping_witness :
    ¬ ((0 : Int) ≤ 42 ∧ (42 : Int) ≤ 5)
  ∧ get_measurement_status_text 42 = "Unknown" :=
  ⟨by decide, c2_status_label_mapping.2.2.2.2.2.2 42 (by decide)⟩

/-- Claim C3 counterexample: a plant-list call that hits a 401, re-auths
successfully, hits a second 401 on the retry and re-auths successfully again
returns the plants of the third call, not the empty list the claim requires
after a second authorization failure. -/
theorem c3_second_auth_failure_counterexample :
    get_user_plants [FetchOutcome.http401, FetchOutcome.http401,
        FetchOutcome.success [fern]] [AuthOutcome.success, AuthOutcome.success]
      = [fern]
  ∧ get_user_plants [FetchOutcome.http401, FetchOutcome.http401,
        FetchOutcome.success [fern]] [AuthOutcome.success, AuthOutcome.success]
      ≠ [] := by
  decide

/-- Claim C3 as amended: on a 401 the plant-list fetch re-authenticates and,
whenever that re-authentication succeeds, retries the call again - with no
bound on the number of retries; it returns an empty list when the
re-authentication after a 401 fails, and on any non-401 error; a successful
call returns its plants. -/
theorem c3_reauth_retry_behavior (rest : List FetchOutcome)
    (auths : List AuthOutcome) :
    get_user_plants (FetchOutcome.http401 :: rest)
        (AuthOutcome.failure :: auths) = []
  ∧ get_user_plants (FetchOutcome.http401 :: rest)
        (AuthOutcome.success :: auths) = get_user_plants rest auths
  ∧ (∀ ps, get_user_plants (FetchOutcome.success ps :: rest) auths = ps)
  ∧ get_user_plants (FetchOutcome.httpError :: rest) auths = []
  ∧ get_user_plants (FetchOutcome.requestError :: rest) auths = [] :=
  ⟨rfl, rfl, fun _ => rfl, rfl, rfl⟩

/-- Claim C4 counterexample: with an operation that fails twice and succeeds
on the third attempt and a base delay of 10, the retry loop waits 10 and 10,
not the 10 and 20 that a linear backoff (baseDelay times the attempt number)
would give. -/
theorem c4_linear_backoff_counterexample :
    (wait_for_network_connection (fun a => a == 3) 3 10).1 = true
  ∧ (wait_for_network_connection (fun a => a == 3) 3 10).2 = [10, 10]
  ∧ (wait_for_network_connection (fun a => a == 3) 3 10).2
      ≠ [10 * 1, 10 * 2] := by
  decide

/-- Every sleep performed by the retry loop equals the fixed delay. -/
theorem wfnc_go_delays_const (connected : Nat → Bool) (delay : Nat) :
    ∀ remaining attempt x,
      x ∈ (wfnc_go connected delay attempt remaining).2 → x = delay := by
  intro remaining
  induction remaining with
  | zero =>
    intro attempt x hx
    simp [wfnc_go] at hx
  | succ r ih =>
    intro attempt x hx
    unfold wfnc_go at hx
    split_ifs at hx with h1 h2
    · simp at hx
    · simp at hx
    · simp at hx
      rcases hx with rfl | hx
      · rfl
      · exact ih (attempt + 1) x hx

/-- Claim C4 as amended: the backoff of wait_for_network_connection is
constant, not linear - every delay waited equals the base delay; with three
attempts allowed and an operation that times out twice then succeeds, the
function returns success after two waits of the base delay each. -/
theorem c4_constant_backoff :
    (∀ (connected : Nat → Bool) (max_retries delay x : Nat),
       x ∈ (wait_for_network_connection connected max_retries delay).2 →
       x = delay)
  ∧ wait_for_network_connection (fun a => a == 3) 3 10 = (true, [10, 10]) := by
  constructor
  · intro c m d x hx
    exact wfnc_go_delays_const c d m 1 x hx
  · decide

/-- Claim C4 witness: the amended statement applied to the delay 10 waited in
the concrete two-failure run. -/
theorem c4_constant_backoff_witness :
    10 ∈ (wait_for_network_connection (fun a => a == 3) 3 10).2
  ∧ (10 : Nat) = 10 :=
  ⟨by decide, c4_constant_backoff.1 (fun a => a == 3) 3 10 10 (by decide)⟩

/-- Claim C8: for the scenario plant (id "7", nickname "Fern", has a sensor)
whose details report temperature status 3 with current "21.5" and moisture
status 0, the reconciliation pass produces a temperature entity with value
"21.5" and status text "Perfect" and a moisture entity with value
"No Data". -/
theorem c8_fern_scenario :
    ((create_plant_sensors fernFetch [PlantRecord.good fern] emptySet)
        (temp_entity_id "7")).map (fun e => (e.value, e.status_text))
      = some ("21.5", some "Perfect")
  ∧ ((create_plant_sensors fernFetch [PlantRecord.good fern] emptySet)
        (moisture_entity_id "7")).map Entity.value = some "No Data" := by
  decide

/-- Claim C10: when the moisture measurement reports status 0 (no data) and
the sensor battery is low, the battery suffix is appended to the no-data
value: the moisture entity value is "No Data (Battery Low)". -/
theorem c10_no_data_battery_suffix :
    ((create_plant_sensors noDataFetch [PlantRecord.good noDataPlant]
        emptySet) (moisture_entity_id "9")).map Entity.value
      = some "No Data (Battery Low)" := by
  decide

/-- Processing a plant whose detail fetch yields nothing leaves the entity set
unchanged. -/
theorem processPlant_fetch_none (fetch : String → Option PlantDetails)
    (st : EntitySet) (p : Plant)
    (hfail : ∀ pid, p.id = some pid → fetch pid = none) :
    processPlant fetch st p = st := by
  obtain ⟨oid, onick, osci, osen⟩ := p
  rcases osen with _ | s
  · rfl
  · rcases oid with _ | pid
    · simp [processPlant]
    · have hf := hfail pid rfl
      simp [processPlant, hf]

/-- Claim C5: a record whose processing raises (caught by the per-plant
try/except) and a plant whose detail fetch fails both contribute nothing: the
pass over a list containing such a record produces exactly the entity set of
the pass with the record removed, and the pass itself is a total function
(the loop never propagates the exception). -/
theorem c5_bad_plant_isolation (fetch : String → Option PlantDetails)
    (xs ys : List PlantRecord) (st : EntitySet) (p : Plant)
    (hfail : ∀ pid, p.id = some pid → fetch pid = none) :
    create_plant_sensors fetch (xs ++ PlantRecord.bad :: ys) st
      = create_plant_sensors fetch (xs ++ ys) st
  ∧ create_plant_sensors fetch (xs ++ PlantRecord.good p :: ys) st
      = create_plant_sensors fetch (xs ++ ys) st := by
  constructor
  · simp [create_plant_sensors, List.foldl_append]
  · simp [create_plant_sensors, List.foldl_append,
      processPlant_fetch_none fetch _ p hfail]

/-- Claim C5 witness: concrete one-element lists around the removed record,
with an always-failing detail fetch. -/
theorem c5_bad_plant_isolation_witness :
    create_plant_sensors (fun _ => none)
        ([PlantRecord.good fern] ++ PlantRecord.bad :: [PlantRecord.good fern])
        emptySet
      = create_plant_sensors (fun _ => none)
          ([PlantRecord.good fern] ++ [PlantRecord.good fern]) emptySet
  ∧ create_plant_sensors (fun _ => none)
        ([PlantRecord.good fern]
          ++ PlantRecord.good zeroMoistPlant :: [PlantRecord.good fern])
        emptySet
      = create_plant_sensors (fun _ => none)
          ([PlantRecord.good fern] ++ [PlantRecord.good fern]) emptySet :=
  c5_bad_plant_isolation (fun _ => none) [PlantRecord.good fern]
    [PlantRecord.good fern] emptySet zeroMoistPlant (fun _ _ => rfl)

/-- Processing one plant does not touch any key other than the two entity ids
derived from its plant id. -/
theorem processPlant_untouched (fetch : String → Option PlantDetails)
    (st : EntitySet) (p : Plant) (k : String)
    (h : ∀ pid, p.id = some pid →
          k ≠ temp_entity_id pid ∧ k ≠ moisture_entity_id pid) :
    processPlant fetch st p k = st k := by
  obtain ⟨oid, onick, osci, osen⟩ := p
  rcases osen with _ | s
  · rfl
  · rcases oid with _ | pid
    · simp [processPlant]
    · obtain ⟨h1, h2⟩ := h pid rfl
      rcases hb : s.has_sensor with _ | _
      · simp [processPlant, hb]
      · rcases hfd : fetch pid with _ | d
        · simp [processPlant, hb, hfd]
        · obtain ⟨oms, osen2⟩ := d
          rcases oms with _ | ms
          · simp [processPlant, hb, hfd, setEntity, h1, h2]
          · simp [processPlant, hb, hfd, setEntity, h1, h2]

/-- A reconciliation pass does not touch any key that no fetched plant
derives. -/
theorem create_plant_sensors_untouched (fetch : String → Option PlantDetails)
    (plants : List PlantRecord) :
    ∀ (st : EntitySet) (k : String),
      (∀ p pid, PlantRecord.good p ∈ plants → p.id = some pid →
        k ≠ temp_entity_id pid ∧ k ≠ moisture_entity_id pid) →
      create_plant_sensors fetch plants st k = st k := by
  induction plants with
  | nil => intro st k _; rfl
  | cons r rest ih =>
    intro st k habs
    cases r with
    | bad =>
      exact ih st k fun p pid hp => habs p pid (List.mem_cons_of_mem _ hp)
    | good p =>
      have hstep : create_plant_sensors fetch (PlantRecord.good p :: rest) st
          = create_plant_sensors fetch rest (processPlant fetch st p) := rfl
      rw [hstep,
        ih (processPlant fetch st p) k
          (fun q pid hq => habs q pid (List.mem_cons_of_mem _ hq)),
        processPlant_untouched fetch st p k
          (fun pid hpid => habs p pid (List.mem_cons_self _ _) hpid)]

/-- Claim C6: reconciliation never removes entries - an entity stored under a
key that no plant of the fetched list derives (in particular one whose plant
is absent from the list) is still present with unchanged fields after the
pass. -/
theorem c6_no_implicit_deletion (fetch : String → Option PlantDetails)
    (plants : List PlantRecord) (st : EntitySet) (k : String) (e : Entity)
    (hk : st k = some e)
    (habs : ∀ p pid, PlantRecord.good p ∈ plants → p.id = some pid →
              k ≠ temp_entity_id pid ∧ k ≠ moisture_entity_id pid) :
    create_plant_sensors fetch plants st k = some e := by
  rw [create_plant_sensors_untouched fetch plants st k habs]
  exact hk

/-- Claim C6 witness: a pass over the plant "7" leaves the stored entity of
the absent plant "99" present and unchanged. -/
theorem c6_no_implicit_deletion_witness :
    create_plant_sensors fernFetch [PlantRecord.good fern] preSet
        "fyta-plant-99" = some preEntity :=
  c6_no_implicit_deletion fernFetch [PlantRecord.good fern] preSet
    "fyta-plant-99" preEntity (by decide)
    (by
      intro p pid hp hpid
      simp only [List.mem_singleton, PlantRecord.good.injEq] at hp
      subst hp
      have h7 : pid = "7" := by
        have hq : (some "7" : Option String) = some pid := hpid
        exact (Option.some.inj hq).symm
      subst h7
      exact ⟨by decide, by decide⟩)

/-- No generic status label ends with the battery suffix. -/
theorem statusTextOfCode_no_battery_suffix (o : Option Int) :
    (statusTextOfCode o).endsWith " (Battery Low)" = false := by
  rcases o with _ | n
  · decide
  · show (get_measurement_status_text n).endsWith " (Battery Low)" = false
    unfold get_measurement_status_text
    split_ifs <;> decide

/-- No undecorated moisture value ends with the battery suffix. -/
theorem moisture_base_value_no_battery_suffix (m : Measurement) :
    (moisture_base_value m).endsWith " (Battery Low)" = false := by
  unfold moisture_base_value
  split_ifs with h1 h2
  · decide
  · decide
  · exact statusTextOfCode_no_battery_suffix m.status

/-- Processing a plant whose details carry a moisture measurement and a
low-battery sensor stores, under the moisture entity id, the freshly derived
base value decorated with exactly one battery suffix - independent of the
entity set the pass started from. -/
theorem processPlant_moisture_battery (fetch : String → Option PlantDetails)
    (st : EntitySet) (p : Plant) (pid : String) (d : PlantDetails)
    (ms : Measurements) (mm : Measurement)
    (hsen : p.sensor = some { has_sensor := true })
    (hid : p.id = some pid)
    (hf : fetch pid = some d)
    (hms : d.measurements = some ms)
    (hmm : ms.moisture = some mm)
    (hbat : d.sensor = some { is_battery_low := true }) :
    processPlant fetch st p (moisture_entity_id pid)
      = some { kind := .moisture, plant_id := pid,
               name := p.nickname.getD ("Plant " ++ pid) ++ " Moisture",
               scientific_name := p.scientific_name.getD "Unknown",
               value := moisture_base_value mm ++ " (Battery Low)",
               status_text := none } := by
  obtain ⟨oid, onick, osci, osen⟩ := p
  obtain ⟨oms, osen2⟩ := d
  obtain ⟨otemp, omoist⟩ := ms
  simp only at hsen hid hms hmm hbat
  subst hsen
  subst hid
  subst hms
  subst hmm
  subst hbat
  simp [processPlant, hf, setEntity]

/-- Claim C7: battery-low decoration is idempotent across passes - for a
plant whose details carry a moisture measurement and a low-battery sensor,
a second reconciliation pass over the same input leaves the moisture entity
value unchanged, and that value is the base value followed by exactly one
" (Battery Low)" suffix (the base value never itself ends with the
suffix). -/
theorem c7_battery_suffix_idempotent (fetch : String → Option PlantDetails)
    (p : Plant) (pid : String) (d : PlantDetails) (ms : Measurements)
    (mm : Measurement) (st0 : EntitySet)
    (hsen : p.sensor = some { has_sensor := true })
    (hid : p.id = some pid)
    (hf : fetch pid = some d)
    (hms : d.measurements = some ms)
    (hmm : ms.moisture = some mm)
    (hbat : d.sensor = some { is_battery_low := true }) :
    create_plant_sensors fetch [PlantRecord.good p]
        (create_plant_sensors fetch [PlantRecord.good p] st0)
        (moisture_entity_id pid)
      = create_plant_sensors fetch [PlantRecord.good p] st0
          (moisture_entity_id pid)
  ∧ ∃ e b,
      create_plant_sensors fetch [PlantRecord.good p] st0
          (moisture_entity_id pid) = some e
      ∧ e.value = b ++ " (Battery Low)"
      ∧ b.endsWith " (Battery Low)" = false := by
  have hone : ∀ st : EntitySet,
      create_plant_sensors fetch [PlantRecord.good p] st
          (moisture_entity_id pid)
        = some { kind := .moisture, plant_id := pid,
                 name := p.nickname.getD ("Plant " ++ pid) ++ " Moisture",
                 scientific_name := p.scientific_name.getD "Unknown",
                 value := moisture_base_value mm ++ " (Battery Low)",
                 status_text := none } := fun st =>
    processPlant_moisture_battery fetch st p pid d ms mm hsen hid hf hms hmm
      hbat
  refine ⟨?_, ?_⟩
  · rw [hone, hone]
  · exact ⟨_, moisture_base_value mm, hone st0, rfl,
      moisture_base_value_no_battery_suffix mm⟩

/-- Claim C7 witness: two passes over the low-battery plant "5" yield the
same moisture value, carrying exactly one battery suffix. -/
theorem c7_battery_suffix_idempotent_witness :
    create_plant_sensors thirstyFetch [PlantRecord.good thirstyPlant]
        (create_plant_sensors thirstyFetch [PlantRecord.good thirstyPlant]
          emptySet) (moisture_entity_id "5")
      = create_plant_sensors thirstyFetch [PlantRecord.good thirstyPlant]
          emptySet (moisture_entity_id "5")
  ∧ ∃ e b,
      create_plant_sensors thirstyFetch [PlantRecord.good thirstyPlant]
          emptySet (moisture_entity_id "5") = some e
      ∧ e.value = b ++ " (Battery Low)"
      ∧ b.endsWith " (Battery Low)" = false :=
  c7_battery_suffix_idempotent thirstyFetch thirstyPlant "5" thirstyDetails
    { temperature := none,
      moisture := some { status := some 2, current := some "40" } }
    { status := some 2, current := some "40" } emptySet rfl rfl (by decide)
    rfl rfl rfl

/-- Claim C9: in the startup trace of main, every stored entity is registered
in a prefix of the trace that contains no network activity of the background
refresh; all refresh activity (connectivity probes, authentication, plant
fetches) lies in the remainder, after the background task is spawned. -/
theorem c9_startup_ordering (stored : List String) (hasConfig : Bool)
    (probes : Nat) (netOk authOk : Bool) (reconcileEvents : List Event) :
    ∃ pre post,
      main_trace stored hasConfig probes netOk authOk reconcileEvents
        = pre ++ post
      ∧ (∀ id ∈ stored, Event.registerEntity id ∈ pre)
      ∧ (∀ e ∈ pre, e.isNetwork = false) := by
  refine ⟨Event.apiInit :: stored.map Event.registerEntity
      ++ [Event.setConnected],
    (if hasConfig then
      Event.spawnBackground ::
        update_entities_from_api_trace probes netOk authOk reconcileEvents
     else []), ?_, ?_, ?_⟩
  · simp [main_trace, List.append_assoc]
  · intro id hid
    exact List.mem_cons_of_mem _
      (List.mem_append_left _ (List.mem_map_of_mem _ hid))
  · intro e he
    rcases List.mem_cons.mp he with rfl | he2
    · rfl
    · rcases List.mem_append.mp he2 with hm | hs
      · obtain ⟨id, _, rfl⟩ := List.mem_map.mp hm
        rfl
      · rcases List.mem_singleton.mp hs with rfl
        rfl

/-- Claim C9 witness: the startup trace with one stored entity and a
configured account. -/
theorem c9_startup_ordering_witness :
    ∃ pre post,
      main_trace ["fyta-plant-7"] true 1 true true [] = pre ++ post
      ∧ (∀ id ∈ ["fyta-plant-7"], Event.registerEntity id ∈ pre)
      ∧ (∀ e ∈ pre, e.isNetwork = false) :=
  c9_startup_ordering ["fyta-plant-7"] true 1 true true []

end FytaDriver
